import Mathlib

/-!
Shallow embedding of the Slack channel-archive export pipeline
(the crawl-and-aggregate API handler): attachment embedder,
message enricher, per-channel harvester and export aggregator.

JavaScript conventions modelled explicitly:
- an optional / possibly-`undefined` field is an `Option`;
- `a || b` on strings is `jsOrStr` (both `undefined` and `""` are falsy);
- `x || ''` and `x || 0` collapse to a default on falsy values;
- object-key assignment `obj[k] = v` is `upsert` on an association list
  (replaces the value in place when the key exists, appends otherwise);
- network calls are oracles passed as function parameters: a file fetch is
  `String → Option String` (`none` = any failure: non-2xx status, network
  error, timeout — all collapsed by the `try`/`catch` + `!response.ok`
  checks in `downloadFileAsBase64`), and a history call is
  `Channel → Except Unit (List MessageIn)` (`Except.error` = the call threw).
-/

/-- JavaScript truthiness of a possibly-undefined string:
`undefined` and `""` are falsy. -/
def jsTruthyStr : Option String → Bool
  | none => false
  | some s => s ≠ ""

/-- JavaScript `a || b` on possibly-undefined strings. -/
def jsOrStr (a b : Option String) : Option String :=
  if jsTruthyStr a then a else b

/-- JavaScript `a || d` producing a definite string (models `x || ''`). -/
def jsOrStrD (a : Option String) (d : String) : String :=
  match a with
  | none => d
  | some s => if s = "" then d else s

/-- JavaScript `a || d` on a possibly-undefined number (models
`channel.num_members || 0`; `0` itself is falsy, which coincides with the
default). -/
def jsOrNat (a : Option Nat) (d : Nat) : Nat :=
  match a with
  | none => d
  | some n => if n = 0 then d else n

/-- Association-list lookup, modelling a JavaScript object read `obj[k]`. -/
def lookupA {β : Type} : List (String × β) → String → Option β
  | [], _ => none
  | (k', v) :: t, k => if k' = k then some v else lookupA t k

/-- Association-list write, modelling a JavaScript object assignment
`obj[k] = v`: the value is replaced in place when the key already exists
(key order is unchanged), else the pair is appended. -/
def upsert {β : Type} : List (String × β) → String → β → List (String × β)
  | [], k, v => [(k, v)]
  | (k', v') :: t, k, v =>
      if k' = k then (k', v) :: t else (k', v') :: upsert t k v

/-- `MAX_FILE_SIZE_BYTES`: maximum file size to embed (5 MiB). -/
def MAX_FILE_SIZE_BYTES : Int := 5 * 1024 * 1024

/-- `EMBEDDABLE_MIMETYPES`: the fixed set of mimetypes embedded as base64. -/
def EMBEDDABLE_MIMETYPES : List String :=
  ["image/jpeg", "image/png", "image/gif", "image/webp", "image/svg+xml"]

/-- A file descriptor attached to a message. Every field except the two
`file_data` ones comes from the remote listing; `file_data` /
`file_data_mimetype` are absent until the embedder populates them. -/
structure SlackFile where
  id : Option String
  name : Option String
  mimetype : Option String
  size : Option Int
  url_private : Option String
  file_data : Option String
  file_data_mimetype : Option String
  deriving DecidableEq, Repr

/-- `file.size <= MAX_FILE_SIZE_BYTES` under JavaScript comparison:
a comparison against `undefined` is false. -/
def sizeOk (s : Option Int) : Bool :=
  match s with
  | none => false
  | some n => n ≤ MAX_FILE_SIZE_BYTES

/-- `EMBEDDABLE_MIMETYPES.includes(file.mimetype)`:
`includes(undefined)` is false. -/
def mimeOk (m : Option String) : Bool :=
  match m with
  | none => false
  | some s => EMBEDDABLE_MIMETYPES.contains s

/-- `downloadFileAsBase64 url token`: the fetch oracle already collapses
every failure mode (non-ok status, thrown network error) to `none`, exactly
as the source's `try`/`catch` plus `!response.ok` guard return `null`. -/
def downloadFileAsBase64 (fetch : String → Option String) (url : String) :
    Option String :=
  fetch url

/-- The per-file body of `processMessageFiles`: decides eligibility
(`shouldEmbed`), optionally fetches, and returns the (possibly upgraded)
descriptor together with whether a fetch was performed. -/
def processFile (fetch : String → Option String) (file : SlackFile) :
    SlackFile × Bool :=
  let shouldEmbed :=
    jsTruthyStr file.url_private && sizeOk file.size && mimeOk file.mimetype
  if shouldEmbed then
    match file.url_private with
    | some url =>
        match downloadFileAsBase64 fetch url with
        | some base64Data =>
            ({ file with
                file_data := some base64Data
                file_data_mimetype := file.mimetype }, true)
        | none => (file, true)
    | none => (file, false)
  else (file, false)

/-- `processMessageFiles files token`: maps the per-file embedder over the
list (the source's `Promise.all(files.map ...)`, whose fan-in preserves
input order; the `files.length === 0` early return yields the same empty
list the map does). -/
def processMessageFiles (fetch : String → Option String)
    (files : List SlackFile) : List SlackFile :=
  files.map (fun file => (processFile fetch file).1)

/-- The `profile` sub-object of a user record. -/
structure SlackProfile where
  display_name : Option String
  image_72 : Option String
  deriving DecidableEq, Repr

/-- A user record as returned by the user listing. -/
structure SlackUser where
  id : String
  name : Option String
  real_name : Option String
  profile : Option SlackProfile
  deriving DecidableEq, Repr

/-- `usersById`: the workspace user mapping built by
`users.forEach(user => usersById[user.id] = user)`. -/
def buildUsersById (users : List SlackUser) : List (String × SlackUser) :=
  users.foldl (fun acc user => upsert acc user.id user) []

/-- A reaction on a message (name + count). -/
structure Reaction where
  name : String
  count : Nat
  deriving DecidableEq, Repr

/-- A raw message as returned by `conversations.history`. -/
structure MessageIn where
  ts : String
  user : Option String
  text : Option String
  subtype : Option String
  reactions : List Reaction
  thread_ts : Option String
  files : Option (List SlackFile)
  deriving DecidableEq, Repr

/-- The denormalized author-profile snapshot attached by the enricher. -/
structure UserProfileView where
  display_name : Option String
  real_name : Option String
  image_72 : Option String
  deriving DecidableEq, Repr

/-- An enriched message: the raw record spread into a new object with
`files` replaced and `user_profile` added (`null` = `none`). -/
structure MessageOut where
  ts : String
  user : Option String
  text : Option String
  subtype : Option String
  reactions : List Reaction
  thread_ts : Option String
  files : Option (List SlackFile)
  user_profile : Option UserProfileView
  deriving DecidableEq, Repr

/-- `usersById[message.user]`: an `undefined` author id reads an absent
key. -/
def lookupUser (usersById : List (String × SlackUser))
    (user : Option String) : Option SlackUser :=
  match user with
  | none => none
  | some id => lookupA usersById id

/-- The per-message body of the harvester's `messages.map`: spreads the raw
message, replaces `files` with the processed list (`undefined` stays
`undefined`), and attaches the author profile snapshot built with the
`||` fallback chains, or `null` when the lookup misses. -/
def transformMessage (usersById : List (String × SlackUser))
    (fetch : String → Option String) (m : MessageIn) : MessageOut :=
  { ts := m.ts
    user := m.user
    text := m.text
    subtype := m.subtype
    reactions := m.reactions
    thread_ts := m.thread_ts
    files := m.files.map (fun files => processMessageFiles fetch files)
    user_profile :=
      match lookupUser usersById m.user with
      | some u =>
          some { display_name :=
                   jsOrStr (jsOrStr (u.profile.bind SlackProfile.display_name)
                     u.real_name) u.name
                 real_name := jsOrStr u.real_name u.name
                 image_72 := u.profile.bind SlackProfile.image_72 }
      | none => none }

/-- A channel as returned by `conversations.list` (with `purpose` / `topic`
already modelling the optional `.value` chain `channel.purpose?.value`). -/
structure Channel where
  id : String
  name : String
  created : Nat
  creator : String
  is_archived : Bool
  is_general : Bool
  num_members : Option Nat
  purpose : Option String
  topic : Option String
  deriving DecidableEq, Repr

/-- The per-channel metadata entry written into `channelData`. -/
structure ChannelData where
  id : String
  name : String
  created : Nat
  creator : String
  is_archived : Bool
  is_general : Bool
  members : Nat
  purpose : String
  topic : String
  deriving DecidableEq, Repr

/-- The `channelData[channel.name] = ...` literal (identical in the success
and failure branches of the harvest loop). -/
def channelDataOf (ch : Channel) : ChannelData :=
  { id := ch.id
    name := ch.name
    created := ch.created
    creator := ch.creator
    is_archived := ch.is_archived
    is_general := ch.is_general
    members := jsOrNat ch.num_members 0
    purpose := jsOrStrD ch.purpose ""
    topic := jsOrStrD ch.topic "" }

/-- Observable effects of one loop iteration, for the pacing-delay claim:
a successful harvest of a channel, a failed one, or the fixed
`setTimeout(resolve, 100)` pacing delay. -/
inductive Event where
  | harvestOk (name : String)
  | harvestFail (name : String)
  | delay
  deriving DecidableEq, Repr

/-- The mutable state threaded through the per-channel loop:
`channelMessages`, `channelData`, and the trace of observable events. -/
structure LoopState where
  channelMessages : List (String × List MessageOut)
  channelData : List (String × ChannelData)
  trace : List Event
  deriving DecidableEq, Repr

/-- One iteration of `for (const channel of channels)`. On a successful
history call the messages are transformed and recorded and the pacing delay
runs (it sits inside the `try`, after the assignments); on a thrown history
call the `catch` records an empty message list and the same metadata entry,
with no pacing delay. -/
def stepChannel (usersById : List (String × SlackUser))
    (fetch : String → Option String)
    (hist : Channel → Except Unit (List MessageIn))
    (st : LoopState) (ch : Channel) : LoopState :=
  match hist ch with
  | Except.ok messages =>
      let transformedMessages :=
        messages.map (transformMessage usersById fetch)
      { channelMessages :=
          upsert st.channelMessages ch.name transformedMessages
        channelData := upsert st.channelData ch.name (channelDataOf ch)
        trace := st.trace ++ [Event.harvestOk ch.name, Event.delay] }
  | Except.error _ =>
      { channelMessages := upsert st.channelMessages ch.name []
        channelData := upsert st.channelData ch.name (channelDataOf ch)
        trace := st.trace ++ [Event.harvestFail ch.name] }

/-- The whole `for (const channel of channels)` loop, from empty maps. -/
def runLoop (channels : List Channel)
    (usersById : List (String × SlackUser))
    (fetch : String → Option String)
    (hist : Channel → Except Unit (List MessageIn)) : LoopState :=
  channels.foldl (stepChannel usersById fetch hist)
    { channelMessages := [], channelData := [], trace := [] }

/-- The `exportData` object (the export date is the only field not
modelled: it is wall-clock time, irrelevant to every claim). -/
structure ExportData where
  channels : List (String × ChannelData)
  messages : List (String × List MessageOut)
  users : List (String × SlackUser)
  totalChannels : Nat
  totalUsers : Nat
  totalMessages : Nat
  deriving DecidableEq, Repr

/-- Assembles `exportData` from the listings and the loop result;
`totalMessages` is the source's
`Object.values(channelMessages).reduce((sum, msgs) => sum + msgs.length, 0)`. -/
def mkExportData (channels : List Channel) (users : List SlackUser)
    (st : LoopState) : ExportData :=
  { channels := st.channelData
    messages := st.channelMessages
    users := buildUsersById users
    totalChannels := channels.length
    totalUsers := users.length
    totalMessages :=
      st.channelMessages.foldl (fun sum p => sum + p.2.length) 0 }

/-- The crawl-and-aggregate portion of `handler` after channels and users
have been listed successfully: build `usersById`, run the per-channel
harvest loop, and assemble `exportData`. -/
def runExport (channels : List Channel) (users : List SlackUser)
    (fetch : String → Option String)
    (hist : Channel → Except Unit (List MessageIn)) : ExportData :=
  mkExportData channels users
    (runLoop channels (buildUsersById users) fetch hist)

/-! Helper lemmas about the JavaScript-object model. -/

theorem lookupA_upsert {β : Type} (acc : List (String × β)) (k q : String)
    (v : β) :
    lookupA (upsert acc k v) q = if k = q then some v else lookupA acc q := by
  induction acc with
  | nil =>
      by_cases hq : k = q <;> simp [upsert, lookupA, hq]
  | cons p t ih =>
      obtain ⟨k0, v0⟩ := p
      by_cases h0 : k0 = k
      · subst h0
        by_cases hq : k0 = q <;> simp [upsert, lookupA, hq]
      · by_cases hq : k0 = q
        · subst hq
          have hk : ¬ k = k0 := fun he => h0 he.symm
          simp [upsert, lookupA, h0, hk]
        · simp [upsert, lookupA, h0, hq, ih]

theorem upsert_keys {β : Type} (acc : List (String × β)) (k : String)
    (v : β) :
    (upsert acc k v).map Prod.fst =
      if k ∈ acc.map Prod.fst then acc.map Prod.fst
      else acc.map Prod.fst ++ [k] := by
  induction acc with
  | nil => simp [upsert]
  | cons p t ih =>
      obtain ⟨k0, v0⟩ := p
      by_cases h0 : k0 = k
      · subst h0
        simp [upsert]
      · have hne : ¬ k = k0 := fun he => h0 he.symm
        by_cases hmem : k ∈ t.map Prod.fst <;>
          simp [upsert, h0, hne, hmem, ih]

theorem foldl_add_lengths {α : Type} (l : List (String × List α)) (n : Nat) :
    l.foldl (fun sum p => sum + p.2.length) n =
      n + (l.map (fun p => p.2.length)).sum := by
  induction l generalizing n with
  | nil => simp
  | cons p t ih => simp [ih, Nat.add_assoc]

/-- JavaScript `a || b || c` unfolded to its fallback chain. -/
theorem jsOrStr_chain (a b c : Option String) :
    jsOrStr (jsOrStr a b) c =
      if jsTruthyStr a then a else if jsTruthyStr b then b else c := by
  by_cases ha : jsTruthyStr a
  · simp [jsOrStr, ha]
  · by_cases hb : jsTruthyStr b <;> simp [jsOrStr, ha, hb]

/-- C2: for every export snapshot the aggregator constructs, `totalMessages`
equals the sum over all channel bundles in the message mapping of the length
of that bundle's message list (including degraded, empty bundles); it is
computed from the bundles at construction time in `mkExportData`, never
independently set. -/
theorem c2_totalMessages_derived (channels : List Channel)
    (users : List SlackUser) (fetch : String → Option String)
    (hist : Channel → Except Unit (List MessageIn)) :
    (runExport channels users fetch hist).totalMessages =
      ((runExport channels users fetch hist).messages.map
        (fun p => p.2.length)).sum := by
  simp [runExport, mkExportData, foldl_add_lengths]

/-- C9: enrichment preserves every field of the raw message verbatim —
`ts`, author id, `text`, `subtype`, `reactions`, thread linkage — except
`files`, which is replaced by the element-wise processed list (same length,
same order), and the added author-profile field; the input record is never
mutated (the enricher builds a fresh record). -/
theorem c9_enrich_frame (usersById : List (String × SlackUser))
    (fetch : String → Option String) (m : MessageIn) :
    (transformMessage usersById fetch m).ts = m.ts ∧
    (transformMessage usersById fetch m).user = m.user ∧
    (transformMessage usersById fetch m).text = m.text ∧
    (transformMessage usersById fetch m).subtype = m.subtype ∧
    (transformMessage usersById fetch m).reactions = m.reactions ∧
    (transformMessage usersById fetch m).thread_ts = m.thread_ts ∧
    (transformMessage usersById fetch m).files =
      m.files.map (fun files => files.map (fun f => (processFile fetch f).1)) ∧
    (transformMessage usersById fetch m).files.map List.length =
      m.files.map List.length := by
  refine ⟨rfl, rfl, rfl, rfl, rfl, rfl, rfl, ?_⟩
  cases hf : m.files <;> simp [transformMessage, processMessageFiles, hf]

/-- C3: for every file descriptor, `embed` (the per-file body of
`processMessageFiles`) either returns the input exactly, or returns the
input with every original field unchanged plus a populated embedded payload
(`file_data` and `file_data_mimetype`); and on any fetch failure (the fetch
oracle returns `none`, covering non-success status, network error, timeout)
the descriptor is returned unmodified — the model is a total function, so
no exception escapes to the enclosing message or channel. -/
theorem c3_embed_upgrade_only (fetch : String → Option String)
    (file : SlackFile) :
    ((processFile fetch file).1 = file ∨
      ∃ d, (processFile fetch file).1 =
        { file with file_data := some d
                    file_data_mimetype := file.mimetype }) ∧
    (∀ url, file.url_private = some url → fetch url = none →
      (processFile fetch file).1 = file) := by
  constructor
  · cases hs : (jsTruthyStr file.url_private && sizeOk file.size &&
        mimeOk file.mimetype) with
    | false => left; simp [processFile, hs]
    | true =>
        cases hu : file.url_private with
        | none => left; simp [processFile, jsTruthyStr, hu]
        | some url =>
            rw [hu, Bool.and_eq_true, Bool.and_eq_true] at hs
            obtain ⟨⟨h1, h2⟩, h3⟩ := hs
            cases hf : fetch url with
            | none =>
                left
                simp [processFile, downloadFileAsBase64, hu, hf, h1, h2, h3]
            | some d =>
                right
                refine ⟨d, ?_⟩
                simp [processFile, downloadFileAsBase64, hu, hf, h1, h2, h3]
  · intro url hu hf
    cases hs : (jsTruthyStr file.url_private && sizeOk file.size &&
        mimeOk file.mimetype) with
    | false => simp [processFile, hs]
    | true =>
        rw [hu, Bool.and_eq_true, Bool.and_eq_true] at hs
        obtain ⟨⟨h1, h2⟩, h3⟩ := hs
        simp [processFile, downloadFileAsBase64, hu, hf, h1, h2, h3]

/-- C3 witness: a concrete eligible descriptor whose fetch fails is
returned unmodified. -/
theorem c3_witness :
    (processFile (fun _ => none)
      { id := some "F1", name := some "pic.png",
        mimetype := some "image/png", size := some 1024,
        url_private := some "https://files/p.png",
        file_data := none, file_data_mimetype := none }).1 =
      { id := some "F1", name := some "pic.png",
        mimetype := some "image/png", size := some 1024,
        url_private := some "https://files/p.png",
        file_data := none, file_data_mimetype := none } :=
  (c3_embed_upgrade_only (fun _ => none) _).2 "https://files/p.png" rfl rfl

/-- C4: a file descriptor failing the eligibility predicate — no fetchable
URL, or size strictly greater than 5 MiB, or a mimetype outside the fixed
embeddable set — passes through `embed` field-for-field identical, with no
fetch performed (the performed-fetch flag is `false`). -/
theorem c4_ineligible_identity (fetch : String → Option String)
    (file : SlackFile)
    (h : jsTruthyStr file.url_private = false ∨
         (∃ n, file.size = some n ∧ MAX_FILE_SIZE_BYTES < n) ∨
         mimeOk file.mimetype = false) :
    processFile fetch file = (file, false) := by
  have hs : (jsTruthyStr file.url_private && sizeOk file.size &&
      mimeOk file.mimetype) = false := by
    rcases h with h | ⟨n, hn, hlt⟩ | h
    · simp [h]
    · have hsz : sizeOk file.size = false := by
        simp [sizeOk, hn, not_le.mpr hlt]
      simp [hsz]
    · simp [h]
  simp [processFile, hs]

/-- C4 witness: a concrete 6 MiB PNG (over the 5 MiB cap) is returned
unchanged with no fetch. -/
theorem c4_witness :
    processFile (fun _ => some "AAAA")
      { id := some "F2", name := some "big.png",
        mimetype := some "image/png", size := some 6291456,
        url_private := some "https://files/big.png",
        file_data := none, file_data_mimetype := none } =
      ({ id := some "F2", name := some "big.png",
         mimetype := some "image/png", size := some 6291456,
         url_private := some "https://files/big.png",
         file_data := none, file_data_mimetype := none }, false) :=
  c4_ineligible_identity (fun _ => some "AAAA") _
    (Or.inr (Or.inl ⟨6291456, rfl, by decide⟩))

/-- C5: harvesting never raises past the channel boundary — the loop body
is a total function — and on a channel whose history call throws, the
aggregator still records an entry whose descriptor carries the metadata
already known from the channel listing (id, name, created, creator,
is_archived, is_general, member count, purpose, topic) and whose message
sequence is empty, then proceeds to the next channel. -/
theorem c5_harvest_failure_degraded (usersById : List (String × SlackUser))
    (fetch : String → Option String)
    (hist : Channel → Except Unit (List MessageIn))
    (st : LoopState) (ch : Channel)
    (h : hist ch = Except.error ()) :
    lookupA (stepChannel usersById fetch hist st ch).channelData ch.name =
      some { id := ch.id, name := ch.name, created := ch.created,
             creator := ch.creator, is_archived := ch.is_archived,
             is_general := ch.is_general,
             members := jsOrNat ch.num_members 0,
             purpose := jsOrStrD ch.purpose "",
             topic := jsOrStrD ch.topic "" } ∧
    lookupA (stepChannel usersById fetch hist st ch).channelMessages
      ch.name = some [] := by
  constructor
  · simp [stepChannel, h, channelDataOf, lookupA_upsert]
  · simp [stepChannel, h, lookupA_upsert]

/-- C5 witness: a concrete channel whose history call throws still gets a
metadata-intact, empty-message entry. -/
theorem c5_witness :
    lookupA (stepChannel [] (fun _ => none) (fun _ => Except.error ())
        { channelMessages := [], channelData := [], trace := [] }
        { id := "C01", name := "secret-ops", created := 7, creator := "U0",
          is_archived := true, is_general := false, num_members := some 4,
          purpose := some "ops", topic := some "t" }).channelData
      "secret-ops" =
      some { id := "C01", name := "secret-ops", created := 7, creator := "U0",
             is_archived := true, is_general := false, members := 4,
             purpose := "ops", topic := "t" } ∧
    lookupA (stepChannel [] (fun _ => none) (fun _ => Except.error ())
        { channelMessages := [], channelData := [], trace := [] }
        { id := "C01", name := "secret-ops", created := 7, creator := "U0",
          is_archived := true, is_general := false, num_members := some 4,
          purpose := some "ops", topic := some "t" }).channelMessages
      "secret-ops" = some [] :=
  c5_harvest_failure_degraded [] (fun _ => none) (fun _ => Except.error ())
    { channelMessages := [], channelData := [], trace := [] }
    { id := "C01", name := "secret-ops", created := 7, creator := "U0",
      is_archived := true, is_general := false, num_members := some 4,
      purpose := some "ops", topic := some "t" } rfl

/-- C6: for a message whose author id is unset, or set but absent from the
user index, the enriched record's `user_profile` is explicitly absent
(`none`, the model of the source's `null` — not a placeholder object); the
lookup miss is a handled branch of a total function, so it cannot raise. -/
theorem c6_profile_absent_on_miss (usersById : List (String × SlackUser))
    (fetch : String → Option String) (m : MessageIn)
    (h : m.user = none ∨
         ∀ uid, m.user = some uid → lookupA usersById uid = none) :
    (transformMessage usersById fetch m).user_profile = none := by
  cases hm : m.user with
  | none => simp [transformMessage, lookupUser, hm]
  | some uid =>
      rcases h with h | h
      · rw [hm] at h; cases h
      · simp [transformMessage, lookupUser, hm, h uid hm]

/-- C6 witness: a concrete message by an unknown author id gets
`user_profile = none`. -/
theorem c6_witness :
    (transformMessage [] (fun _ => none)
      { ts := "1.1", user := some "U404", text := some "hi",
        subtype := none, reactions := [], thread_ts := none,
        files := none }).user_profile = none :=
  c6_profile_absent_on_miss [] (fun _ => none)
    { ts := "1.1", user := some "U404", text := some "hi",
      subtype := none, reactions := [], thread_ts := none, files := none }
    (Or.inr (fun _ _ => rfl))

/-- C7: for a message whose author is found in the user index, the attached
profile snapshot's display name is the author's profile `display_name`,
falling back to `real_name`, falling back to the handle `name`; its real
name is `real_name` falling back to `name`; and it carries the 72px avatar
URL. In particular, for a user record with only `name` set the display
name equals `name`. -/
theorem c7_profile_fallback_chain (usersById : List (String × SlackUser))
    (fetch : String → Option String) (m : MessageIn) (uid : String)
    (u : SlackUser) (hm : m.user = some uid)
    (hl : lookupA usersById uid = some u) :
    ∃ p, (transformMessage usersById fetch m).user_profile = some p ∧
      p.display_name =
        (if jsTruthyStr (u.profile.bind SlackProfile.display_name) then
          u.profile.bind SlackProfile.display_name
         else if jsTruthyStr u.real_name then u.real_name else u.name) ∧
      p.real_name =
        (if jsTruthyStr u.real_name then u.real_name else u.name) ∧
      p.image_72 = u.profile.bind SlackProfile.image_72 ∧
      (u.profile = none → u.real_name = none → p.display_name = u.name) := by
  refine ⟨{ display_name := jsOrStr (jsOrStr (u.profile.bind
              SlackProfile.display_name) u.real_name) u.name,
            real_name := jsOrStr u.real_name u.name,
            image_72 := u.profile.bind SlackProfile.image_72 },
          ?_, ?_, rfl, rfl, ?_⟩
  · simp [transformMessage, lookupUser, hm, hl]
  · exact jsOrStr_chain _ _ _
  · intro hp hr
    simp [jsOrStr, jsTruthyStr, hp, hr]

/-- C7 witness: a concrete author with only `name` set yields a profile
snapshot whose display name and real name are the handle. -/
theorem c7_witness :
    ∃ p, (transformMessage
        [("U1", { id := "U1", name := some "ada", real_name := none,
                  profile := none })] (fun _ => none)
        { ts := "2.2", user := some "U1", text := some "yo",
          subtype := none, reactions := [], thread_ts := none,
          files := none }).user_profile = some p ∧
      p.display_name =
        (if jsTruthyStr ((none : Option SlackProfile).bind
            SlackProfile.display_name) then
          (none : Option SlackProfile).bind SlackProfile.display_name
         else if jsTruthyStr none then none else some "ada") ∧
      p.real_name = (if jsTruthyStr none then none else some "ada") ∧
      p.image_72 = (none : Option SlackProfile).bind SlackProfile.image_72 ∧
      ((none : Option SlackProfile) = none → (none : Option String) = none →
        p.display_name = some "ada") :=
  c7_profile_fallback_chain
    [("U1", { id := "U1", name := some "ada", real_name := none,
              profile := none })] (fun _ => none)
    { ts := "2.2", user := some "U1", text := some "yo",
      subtype := none, reactions := [], thread_ts := none, files := none }
    "U1"
    { id := "U1", name := some "ada", real_name := none, profile := none }
    rfl rfl

/-! Key-set lemmas for the channel loop. -/

theorem stepChannel_keys (usersById : List (String × SlackUser))
    (fetch : String → Option String)
    (hist : Channel → Except Unit (List MessageIn))
    (st : LoopState) (ch : Channel) :
    ((stepChannel usersById fetch hist st ch).channelData).map Prod.fst =
      if ch.name ∈ st.channelData.map Prod.fst then
        st.channelData.map Prod.fst
      else st.channelData.map Prod.fst ++ [ch.name] := by
  cases h : hist ch <;> simp [stepChannel, h, upsert_keys]

theorem foldl_stepChannel_keys (usersById : List (String × SlackUser))
    (fetch : String → Option String)
    (hist : Channel → Except Unit (List MessageIn)) :
    ∀ (l : List Channel) (st : LoopState),
      (l.map Channel.name).Nodup →
      (∀ c ∈ l, c.name ∉ st.channelData.map Prod.fst) →
      ((l.foldl (stepChannel usersById fetch hist) st).channelData).map
          Prod.fst =
        st.channelData.map Prod.fst ++ l.map Channel.name := by
  intro l
  induction l with
  | nil => intro st _ _; simp
  | cons c t ih =>
      intro st hnd hnin
      have hc : c.name ∉ st.channelData.map Prod.fst := hnin c (by simp)
      have hstep :
          ((stepChannel usersById fetch hist st c).channelData).map
            Prod.fst = st.channelData.map Prod.fst ++ [c.name] := by
        rw [stepChannel_keys, if_neg hc]
      rw [List.map_cons, List.nodup_cons] at hnd
      have hrest : ∀ c2 ∈ t,
          c2.name ∉ ((stepChannel usersById fetch hist st
            c).channelData).map Prod.fst := by
        intro c2 hc2
        rw [hstep]
        simp only [List.mem_append, List.mem_singleton]
        rintro (hin | heq)
        · exact hnin c2 (List.mem_cons_of_mem c hc2) hin
        · exact hnd.1 (heq ▸ List.mem_map_of_mem Channel.name hc2)
      rw [List.foldl_cons, ih _ hnd.2 hrest, hstep]
      simp

/-- C1 counterexample: a run that enumerates N = 2 channels which share a
display name (one of which fails during harvest) produces a channel mapping
with a single entry, so the mapping does not have N entries and
`totalChannels` (= 2) differs from the number of entries (= 1). -/
theorem c1_counterexample :
    ¬ ((runExport
          [{ id := "C1", name := "dup", created := 1, creator := "U0",
             is_archived := false, is_general := false,
             num_members := some 2, purpose := none, topic := none },
           { id := "C2", name := "dup", created := 2, creator := "U0",
             is_archived := false, is_general := false,
             num_members := some 3, purpose := none, topic := none }]
          [] (fun _ => none)
          (fun ch => if ch.id = "C2" then Except.error ()
                     else Except.ok [])).channels.length = 2 ∧
        (runExport
          [{ id := "C1", name := "dup", created := 1, creator := "U0",
             is_archived := false, is_general := false,
             num_members := some 2, purpose := none, topic := none },
           { id := "C2", name := "dup", created := 2, creator := "U0",
             is_archived := false, is_general := false,
             num_members := some 3, purpose := none, topic := none }]
          [] (fun _ => none)
          (fun ch => if ch.id = "C2" then Except.error ()
                     else Except.ok [])).totalChannels =
        (runExport
          [{ id := "C1", name := "dup", created := 1, creator := "U0",
             is_archived := false, is_general := false,
             num_members := some 2, purpose := none, topic := none },
           { id := "C2", name := "dup", created := 2, creator := "U0",
             is_archived := false, is_general := false,
             num_members := some 3, purpose := none, topic := none }]
          [] (fun _ => none)
          (fun ch => if ch.id = "C2" then Except.error ()
                     else Except.ok [])).channels.length) := by
  decide

/-- C1 (amended): for every run whose enumerated channels have pairwise
distinct display names — the mapping is keyed by channel name, so
same-named channels silently collapse — if the listing returns N channels
and harvesting fails for any K of them, the snapshot's channel mapping has
exactly N entries and `totalChannels` equals that number of entries. -/
theorem c1_completeness_distinct_names (channels : List Channel)
    (users : List SlackUser) (fetch : String → Option String)
    (hist : Channel → Except Unit (List MessageIn))
    (h : (channels.map Channel.name).Nodup) :
    (runExport channels users fetch hist).channels.length =
      channels.length ∧
    (runExport channels users fetch hist).totalChannels =
      (runExport channels users fetch hist).channels.length := by
  have hk := foldl_stepChannel_keys (buildUsersById users) fetch hist
    channels { channelMessages := [], channelData := [], trace := [] } h
    (by simp)
  have hlen : (runExport channels users fetch hist).channels.length =
      channels.length := by
    have hlen2 := congrArg List.length hk
    simpa [runExport, mkExportData, runLoop] using hlen2
  exact ⟨hlen, hlen.symm⟩

/-- C1 witness: two distinctly-named channels, one failing, give a
2-entry mapping with matching counter. -/
theorem c1_witness :
    (runExport
      [{ id := "C1", name := "general", created := 1, creator := "U0",
         is_archived := false, is_general := true, num_members := some 9,
         purpose := none, topic := none },
       { id := "C2", name := "secret-ops", created := 2, creator := "U0",
         is_archived := false, is_general := false, num_members := some 3,
         purpose := none, topic := none }]
      [] (fun _ => none)
      (fun ch => if ch.id = "C2" then Except.error ()
                 else Except.ok [])).channels.length = 2 ∧
    (runExport
      [{ id := "C1", name := "general", created := 1, creator := "U0",
         is_archived := false, is_general := true, num_members := some 9,
         purpose := none, topic := none },
       { id := "C2", name := "secret-ops", created := 2, creator := "U0",
         is_archived := false, is_general := false, num_members := some 3,
         purpose := none, topic := none }]
      [] (fun _ => none)
      (fun ch => if ch.id = "C2" then Except.error ()
                 else Except.ok [])).totalChannels =
    (runExport
      [{ id := "C1", name := "general", created := 1, creator := "U0",
         is_archived := false, is_general := true, num_members := some 9,
         purpose := none, topic := none },
       { id := "C2", name := "secret-ops", created := 2, creator := "U0",
         is_archived := false, is_general := false, num_members := some 3,
         purpose := none, topic := none }]
      [] (fun _ => none)
      (fun ch => if ch.id = "C2" then Except.error ()
                 else Except.ok [])).channels.length :=
  c1_completeness_distinct_names
    [{ id := "C1", name := "general", created := 1, creator := "U0",
       is_archived := false, is_general := true, num_members := some 9,
       purpose := none, topic := none },
     { id := "C2", name := "secret-ops", created := 2, creator := "U0",
       is_archived := false, is_general := false, num_members := some 3,
       purpose := none, topic := none }]
    [] (fun _ => none)
    (fun ch => if ch.id = "C2" then Except.error () else Except.ok [])
    (by decide)

/-- C8 counterexample: a run with a single channel whose harvest fails
performs that harvest but inserts no pacing delay before moving on — the
`setTimeout` pacing call sits inside the `try` block after the successful
assignments, and the `catch` path has none — refuting the claim that the
delay follows every harvest whether it succeeded or failed. -/
theorem c8_counterexample :
    Event.harvestFail "flaky" ∈
      (runLoop
        [{ id := "C9", name := "flaky", created := 3, creator := "U0",
           is_archived := false, is_general := false,
           num_members := some 1, purpose := none, topic := none }]
        [] (fun _ => none) (fun _ => Except.error ())).trace ∧
    Event.delay ∉
      (runLoop
        [{ id := "C9", name := "flaky", created := 3, creator := "U0",
           is_archived := false, is_general := false,
           num_members := some 1, purpose := none, topic := none }]
        [] (fun _ => none) (fun _ => Except.error ())).trace := by
  decide

/-- C8 (amended): after every successful channel harvest the aggregator
inserts the fixed small pacing delay before proceeding to the next channel;
after a failed harvest it records the degraded entry and proceeds to the
next channel immediately, with no pacing delay. -/
theorem c8_delay_only_on_success (usersById : List (String × SlackUser))
    (fetch : String → Option String)
    (hist : Channel → Except Unit (List MessageIn))
    (st : LoopState) (ch : Channel) :
    (∀ msgs, hist ch = Except.ok msgs →
      (stepChannel usersById fetch hist st ch).trace =
        st.trace ++ [Event.harvestOk ch.name, Event.delay]) ∧
    (hist ch = Except.error () →
      (stepChannel usersById fetch hist st ch).trace =
        st.trace ++ [Event.harvestFail ch.name]) := by
  constructor
  · intro msgs h; simp [stepChannel, h]
  · intro h; simp [stepChannel, h]

/-- C8 witness: a concrete successful harvest appends the pacing delay and
a concrete failed harvest does not. -/
theorem c8_witness :
    (stepChannel [] (fun _ => none) (fun _ => Except.ok [])
        { channelMessages := [], channelData := [], trace := [] }
        { id := "C1", name := "general", created := 1, creator := "U0",
          is_archived := false, is_general := true, num_members := some 9,
          purpose := none, topic := none }).trace =
      [Event.harvestOk "general", Event.delay] ∧
    (stepChannel [] (fun _ => none) (fun _ => Except.error ())
        { channelMessages := [], channelData := [], trace := [] }
        { id := "C9", name := "flaky", created := 3, creator := "U0",
          is_archived := false, is_general := false, num_members := some 1,
          purpose := none, topic := none }).trace =
      [Event.harvestFail "flaky"] :=
  ⟨(c8_delay_only_on_success [] (fun _ => none) (fun _ => Except.ok [])
      { channelMessages := [], channelData := [], trace := [] }
      { id := "C1", name := "general", created := 1, creator := "U0",
        is_archived := false, is_general := true, num_members := some 9,
        purpose := none, topic := none }).1 [] rfl,
   (c8_delay_only_on_success [] (fun _ => none) (fun _ => Except.error ())
      { channelMessages := [], channelData := [], trace := [] }
      { id := "C9", name := "flaky", created := 3, creator := "U0",
        is_archived := false, is_general := false, num_members := some 1,
        purpose := none, topic := none }).2 rfl⟩

/-! Last-write-wins lemma for the user mapping. -/

theorem lookupA_buildUsersById_aux (users : List SlackUser) :
    ∀ (acc : List (String × SlackUser)) (uid : String),
      lookupA (users.foldl (fun a u => upsert a u.id u) acc) uid =
        match users.reverse.find? (fun u => u.id == uid) with
        | some u => some u
        | none => lookupA acc uid := by
  induction users with
  | nil => intro acc uid; simp
  | cons u t ih =>
      intro acc uid
      rw [List.foldl_cons, ih, List.reverse_cons]
      cases hf : t.reverse.find? (fun v => v.id == uid) with
      | some w => simp [List.find?_append, hf]
      | none =>
          by_cases h : u.id = uid
          · simp [List.find?_append, hf, lookupA_upsert, h, List.find?]
          · have hb : (u.id == uid) = false := by simp [h]
            simp [List.find?_append, hf, lookupA_upsert, h, List.find?, hb]

/-- C10: the snapshot's `totalUsers` counter equals the length of the list
returned by the remote user listing, not the number of keys in the
workspace user mapping: the mapping is built by keyed assignment, so when
two returned records share an id the later record wins the key (the lookup
sees the last record with that id), while `totalUsers` still counts both —
as the concrete duplicate-id run at the end shows (1 mapping entry,
`totalUsers` = 2). -/
theorem c10_totalUsers_counts_duplicates (channels : List Channel)
    (users : List SlackUser) (fetch : String → Option String)
    (hist : Channel → Except Unit (List MessageIn)) :
    (runExport channels users fetch hist).totalUsers = users.length ∧
    (∀ uid, lookupA (runExport channels users fetch hist).users uid =
      users.reverse.find? (fun u => u.id == uid)) ∧
    ((runExport []
        [{ id := "U9", name := some "old", real_name := none,
           profile := none },
         { id := "U9", name := some "new", real_name := none,
           profile := none }] (fun _ => none)
        (fun _ => Except.ok [])).users.length = 1 ∧
     lookupA (runExport []
        [{ id := "U9", name := some "old", real_name := none,
           profile := none },
         { id := "U9", name := some "new", real_name := none,
           profile := none }] (fun _ => none)
        (fun _ => Except.ok [])).users "U9" =
       some { id := "U9", name := some "new", real_name := none,
              profile := none } ∧
     (runExport []
        [{ id := "U9", name := some "old", real_name := none,
           profile := none },
         { id := "U9", name := some "new", real_name := none,
           profile := none }] (fun _ => none)
        (fun _ => Except.ok [])).totalUsers = 2) := by
  refine ⟨rfl, ?_, by decide, by decide, rfl⟩
  intro uid
  have h := lookupA_buildUsersById_aux users [] uid
  cases hf : users.reverse.find? (fun u => u.id == uid) with
  | none =>
      rw [hf] at h
      simpa [runExport, mkExportData, buildUsersById, lookupA] using h
  | some w =>
      rw [hf] at h
      simpa [runExport, mkExportData, buildUsersById] using h
